import Mathlib

/-!
Shallow embedding of the locale-routing core of `assets/js/i18n.js`
(the `I18n` object): locale detection from the current path, preferred-
locale resolution, the root redirect, the two address-rewriting modes of
`switchTo`, `getAlternateUrl`, and the language-switcher UI update.

JavaScript strings are modelled as Lean `String`; the string helpers
(`includes`, `endsWith`, `startsWith`, anchored replace, `split('/')`,
`substring(0, lastIndexOf('/'))`) are implemented over the underlying
character lists so that they both evaluate on concrete inputs and admit
induction.  Stateful effects (localStorage reads/writes, `console.warn`,
`window.location.href` assignment) are made explicit as returned values;
a throwing storage layer is modelled with `Except`.
-/

namespace AMD

/-- `listHasPre p l`: `p` is an initial run of `l` (JS `startsWith`). -/
def listHasPre : List Char → List Char → Bool
  | [], _ => true
  | _ :: _, [] => false
  | a :: as, b :: bs => a == b && listHasPre as bs

/-- `listHasSub sub l`: `sub` occurs contiguously inside `l` (JS `includes`). -/
def listHasSub (sub : List Char) : List Char → Bool
  | [] => sub.isEmpty
  | c :: cs => listHasPre sub (c :: cs) || listHasSub sub cs

/-- JS `s.includes(sub)`. -/
def jsIncludes (s sub : String) : Bool := listHasSub sub.data s.data

/-- JS `s.startsWith(p)`. -/
def jsStartsWith (s p : String) : Bool := listHasPre p.data s.data

/-- JS `s.endsWith(suf)`. -/
def jsEndsWith (s suf : String) : Bool := listHasPre suf.data.reverse s.data.reverse

/-- Characters strictly before the last `'/'`; empty when there is no `'/'`
(JS `path.substring(0, path.lastIndexOf('/'))`, where index `-1` clamps to `0`). -/
def beforeLastSlash : List Char → List Char
  | [] => []
  | c :: cs => if cs.contains '/' then c :: beforeLastSlash cs else []

/-- Characters strictly after the last `'/'`; the whole list when there is no
`'/'` (JS `path.split('/').pop()`). -/
def afterLastSlash : List Char → List Char
  | [] => []
  | c :: cs => if cs.contains '/' || c == '/' then afterLastSlash cs else c :: cs

/-- Enclosing directory of a path (JS `path.substring(0, path.lastIndexOf('/'))`). -/
def dirOf (path : String) : String := ⟨beforeLastSlash path.data⟩

/-- Final path segment, defaulting to `"index.html"` when empty
(JS `path.split('/').pop() || 'index.html'`). -/
def fileOf (path : String) : String :=
  let f : List Char := afterLastSlash path.data
  if f.isEmpty then "index.html" else ⟨f⟩

/-- `I18n.SUPPORTED_LANGS`. -/
def SUPPORTED_LANGS : List String := ["en", "ar"]

/-- `I18n.DEFAULT_LANG`. -/
def DEFAULT_LANG : String := "en"

/-- `I18n.getCurrentLang()`: derive the locale from `window.location.pathname`,
checking the `ar` patterns first, then the `en` patterns, else `null`. -/
def getCurrentLang (path : String) : Option String :=
  if jsIncludes path "ar/" || jsEndsWith path "ar" ||
     jsIncludes path "\\ar\\" || jsIncludes path "ar/index.html" then some "ar"
  else if jsIncludes path "en/" || jsEndsWith path "en" ||
     jsIncludes path "\\en\\" || jsIncludes path "en/index.html" then some "en"
  else none

/-- `path.replace(new RegExp('^/' + c), '')`: strip a leading `"/" ++ c`
when present (the regex is anchored, so at most one strip at the front). -/
def stripLang (path c : String) : String :=
  if jsStartsWith path ("/" ++ c) then ⟨path.data.drop ("/" ++ c).data.length⟩
  else path

/-- The `if (!path.startsWith('/')) path = '/' + path;` step of `switchTo`. -/
def ensureSlash (p : String) : String :=
  if jsStartsWith p "/" then p else "/" ++ p

/-- The stripped current path of `switchTo`'s networked branch: the current
locale's leading marker removed when a locale was detected. -/
def stripCur (path : String) : String :=
  match getCurrentLang path with
  | some c => stripLang path c
  | none => path

/-- The path computed by the networked (server) branch of `I18n.switchTo`
(lines 153-175): strip the current-locale marker, ensure a leading `'/'`,
then leave the default locale unprefixed and prefix `'/' + newLang` otherwise
(with a trailing `'/'` when the stripped path is the bare root). -/
def networkedTarget (path newLang : String) : String :=
  if newLang = "en" then
    (if ensureSlash (stripCur path) = "/" then "/" else ensureSlash (stripCur path))
  else
    (if ensureSlash (stripCur path) = "/" then "/" ++ newLang ++ "/"
     else "/" ++ newLang ++ ensureSlash (stripCur path))

/-- JS string coercion of the detected locale as used in
`currentDir.endsWith('/' + currentLang)`: `null` prints as `"null"`. -/
def langStr : Option String → String
  | some c => c
  | none => "null"

/-- The path computed by the `file:` branch of `I18n.switchTo`
(lines 130-152): sibling-folder addressing, with default-locale files living
in the parent folder. -/
def localFileTarget (path newLang : String) : String :=
  if jsEndsWith (dirOf path) ("/" ++ langStr (getCurrentLang path)) then
    (if newLang = "en" then dirOf (dirOf path) ++ "/" ++ fileOf path
     else dirOf (dirOf path) ++ "/" ++ newLang ++ "/" ++ fileOf path)
  else
    (if getCurrentLang path = some "en" ∧ newLang = "ar" then
       dirOf path ++ "/ar/" ++ fileOf path
     else dirOf path ++ "/" ++ newLang ++ "/" ++ fileOf path)

/-- Observable outcome of one `I18n.switchTo` call: how many `console.warn`
lines were emitted, what was written to the preference store, and the
`window.location.href` assignment (if any). -/
structure SwitchResult where
  warnings : Nat
  savedPref : Option String
  navTarget : Option String
deriving DecidableEq

/-- `I18n.switchTo(newLang)` as a function of the current path and the
protocol flag (`true` = `file:`): unsupported codes warn and abort, a switch
to the currently detected locale is a silent no-op, and otherwise the
preference is written and navigation goes to the rewritten path. -/
def switchTo (isFile : Bool) (path newLang : String) : SwitchResult :=
  if newLang ∈ SUPPORTED_LANGS then
    if getCurrentLang path = some newLang then ⟨0, none, none⟩
    else ⟨0, some newLang,
          some (if isFile then localFileTarget path newLang
                else networkedTarget path newLang)⟩
  else ⟨1, none, none⟩

/-- Navigation target of the networked branch, `none` when `switchTo` aborts. -/
def switchToNetworked (path newLang : String) : Option String :=
  (switchTo false path newLang).navTarget

/-- Navigation target of the `file:` branch, `none` when `switchTo` aborts. -/
def switchToLocalFile (path newLang : String) : Option String :=
  (switchTo true path newLang).navTarget

/-- The address after a networked `switchTo`: the rewritten path when the
call navigates, the unchanged current path when it is a no-op. -/
def effSwitchNetworked (path newLang : String) : String :=
  (switchToNetworked path newLang).getD path

/-- `navigator.language.split('-')[0]`. -/
def takeBeforeDash (s : String) : String := ⟨s.data.takeWhile (fun c => c != '-')⟩

/-- JS `toLowerCase()` on the language tag. -/
def jsToLower (s : String) : String := ⟨s.data.map Char.toLower⟩

/-- The browser-language / default fallback of `I18n.getPreferredLang`. -/
def browserFallback (browserLang : String) : String :=
  let b := jsToLower (takeBeforeDash browserLang)
  if b ∈ SUPPORTED_LANGS then b else DEFAULT_LANG

/-- `I18n.getPreferredLang()` given the stored value (already read without
throwing): stored preference when supported, else browser language when
supported, else the default. -/
def getPreferredLangCore (stored : Option String) (browserLang : String) : String :=
  match stored with
  | some s => if s ∈ SUPPORTED_LANGS then s else browserFallback browserLang
  | none => browserFallback browserLang

/-- `I18n.getPreferredLang()` with the storage read made explicit: the code
has no try/catch, so a throwing `localStorage.getItem` propagates. -/
def getPreferredLangE (getItem : Except Unit (Option String))
    (browserLang : String) : Except Unit String :=
  match getItem with
  | .error e => .error e
  | .ok st => .ok (getPreferredLangCore st browserLang)

/-- Observable outcome of `I18n.detectAndRedirect`: the preference written
(if any) and the `window.location.href` assignment (if any). -/
structure RedirectResult where
  savedPref : Option String
  navTarget : Option String
deriving DecidableEq

/-- `I18n.detectAndRedirect()` (lines 68-85) assuming storage does not throw:
a path with a detected locale saves the preference and performs no
navigation; otherwise only the exact root (`"/"` or `""`) navigates, to
`'./' + preferredLang + '/'`. -/
def detectAndRedirect (path : String) (stored : Option String)
    (browserLang : String) : RedirectResult :=
  match getCurrentLang path with
  | some c => ⟨some c, none⟩
  | none =>
    if path = "/" ∨ path = "" then
      ⟨none, some ("./" ++ getPreferredLangCore stored browserLang ++ "/")⟩
    else ⟨none, none⟩

/-- `I18n.detectAndRedirect()` with storage failure made explicit: when
`storageFails` is set, `savePreference` / `localStorage.getItem` throw and,
the code having no try/catch, the exception escapes the routine. -/
def detectAndRedirectE (path : String) (storageFails : Bool)
    (stored : Option String) (browserLang : String) :
    Except Unit RedirectResult :=
  match getCurrentLang path with
  | some c => if storageFails then .error () else .ok ⟨some c, none⟩
  | none =>
    if path = "/" ∨ path = "" then
      if storageFails then .error ()
      else .ok ⟨none, some ("./" ++ getPreferredLangCore stored browserLang ++ "/")⟩
    else .ok ⟨none, none⟩

/-- One `.lang-switch__btn` element: its `data-lang` binding, whether it
carries the `lang-switch__btn--active` class, and whether it carries
`aria-current="true"`. -/
structure SwitchBtn where
  lang : String
  active : Bool
  ariaCurrent : Bool
deriving DecidableEq

/-- The per-button body of `I18n.updateLanguageSwitcher`'s `forEach`. -/
def updateBtn (currentLang : String) (b : SwitchBtn) : SwitchBtn :=
  if b.lang = currentLang then { b with active := true, ariaCurrent := true }
  else { b with active := false, ariaCurrent := false }

/-- `I18n.updateLanguageSwitcher(currentLang)` (lines 98-109) over the list
of switch buttons on the page. -/
def updateLanguageSwitcher (currentLang : String) (btns : List SwitchBtn) :
    List SwitchBtn :=
  btns.map (updateBtn currentLang)

/-- `I18n.getAlternateUrl(lang)` (lines 181-194): strip the current locale
(defaulting to `en` when none is detected), ensure a leading `'/'`, and
always render `'/' + lang` in front (with a trailing `'/'` at the root). -/
def getAlternateUrl (path lang : String) : String :=
  "/" ++ lang ++
    (if ensureSlash (stripLang path ((getCurrentLang path).getD DEFAULT_LANG)) = "/"
     then "/"
     else ensureSlash (stripLang path ((getCurrentLang path).getD DEFAULT_LANG)))

/-! Helper lemmas about the string model. -/

theorem listHasPre_append (p r : List Char) : listHasPre p (p ++ r) = true := by
  induction p with
  | nil => rfl
  | cons a as ih => simp [listHasPre, ih]

theorem listHasPre_slash (l : List Char) (h : listHasPre ['/'] l = true) :
    ∃ t, l = '/' :: t := by
  cases l with
  | nil => simp [listHasPre] at h
  | cons c cs =>
    simp [listHasPre] at h
    exact ⟨cs, by rw [h]⟩

theorem ensureSlash_data (p : String) : ∃ t, (ensureSlash p).data = '/' :: t := by
  unfold ensureSlash
  split
  · next h =>
    have h' : listHasPre ['/'] p.data = true := h
    exact listHasPre_slash p.data h'
  · refine ⟨p.data, ?_⟩
    rw [String.data_append]
    rfl

theorem networkedTarget_ar_data (path : String) :
    ∃ t, (networkedTarget path "ar").data = '/' :: 'a' :: 'r' :: '/' :: t := by
  unfold networkedTarget
  rw [if_neg (by decide : ¬ ("ar" : String) = "en")]
  split
  · exact ⟨[], rfl⟩
  · obtain ⟨t, ht⟩ := ensureSlash_data (stripCur path)
    refine ⟨t, ?_⟩
    rw [String.data_append, ht]
    rfl

theorem getCurrentLang_arSlashData (q : String) (t : List Char)
    (h : q.data = '/' :: 'a' :: 'r' :: '/' :: t) : getCurrentLang q = some "ar" := by
  have hsub : jsIncludes q "ar/" = true := by
    unfold jsIncludes
    rw [h]
    show listHasSub ['a', 'r', '/'] ('/' :: 'a' :: 'r' :: '/' :: t) = true
    rw [listHasSub, Bool.or_eq_true]
    right
    rw [listHasSub, Bool.or_eq_true]
    left
    exact listHasPre_append ['a', 'r', '/'] t
  unfold getCurrentLang
  rw [hsub]
  simp

theorem getCurrentLang_networkedTarget_ar (path : String) :
    getCurrentLang (networkedTarget path "ar") = some "ar" := by
  obtain ⟨t, ht⟩ := networkedTarget_ar_data path
  exact getCurrentLang_arSlashData _ t ht

theorem switchToNetworked_eq (path lang : String) (hmem : lang ∈ SUPPORTED_LANGS)
    (h : getCurrentLang path ≠ some lang) :
    switchToNetworked path lang = some (networkedTarget path lang) := by
  unfold switchToNetworked switchTo
  rw [if_pos hmem, if_neg h]
  rfl

theorem switchToLocalFile_eq (path lang : String) (hmem : lang ∈ SUPPORTED_LANGS)
    (h : getCurrentLang path ≠ some lang) :
    switchToLocalFile path lang = some (localFileTarget path lang) := by
  unfold switchToLocalFile switchTo
  rw [if_pos hmem, if_neg h]
  rfl

theorem networkedTarget_en (path : String) :
    networkedTarget path "en" = ensureSlash (stripCur path) := by
  unfold networkedTarget
  rw [if_pos rfl]
  by_cases hp : ensureSlash (stripCur path) = "/"
  · rw [if_pos hp, hp]
  · rw [if_neg hp]

theorem append_slash_ar (a b : String) :
    a ++ "/" ++ "ar" ++ "/" ++ b = a ++ "/ar/" ++ b := by
  apply String.ext
  have h1 : ("/" : String).data = ['/'] := rfl
  have h2 : ("ar" : String).data = ['a', 'r'] := rfl
  have h3 : ("/ar/" : String).data = ['/', 'a', 'r', '/'] := rfl
  simp [String.data_append, h1, h2, h3]

/-! Claim theorems. -/

/-- C1: in networked mode `switchTo` strips the current-locale marker,
re-ensures a leading `'/'`, leaves the result unchanged for the default
target `en` (collapsing to `"/"` when empty) and prefixes `'/ar'` (with a
trailing `'/'` at the root) otherwise; in particular
`/ar/projects/detail.html` with `switchTo('en')` navigates to
`/projects/detail.html` and `/projects/detail.html` with `switchTo('ar')`
navigates to `/ar/projects/detail.html`. -/
theorem C1_networked_rewrite :
    (∀ path : String, getCurrentLang path ≠ some "en" →
       switchToNetworked path "en" = some (ensureSlash (stripCur path)))
  ∧ (∀ path : String, getCurrentLang path ≠ some "ar" →
       switchToNetworked path "ar" =
         some (if ensureSlash (stripCur path) = "/" then "/ar/"
               else "/ar" ++ ensureSlash (stripCur path)))
  ∧ switchToNetworked "/ar/projects/detail.html" "en" = some "/projects/detail.html"
  ∧ switchToNetworked "/projects/detail.html" "ar" = some "/ar/projects/detail.html" := by
  refine ⟨?_, ?_, by decide, by decide⟩
  · intro path h
    rw [switchToNetworked_eq path "en" (by decide) h, networkedTarget_en]
  · intro path h
    rw [switchToNetworked_eq path "ar" (by decide) h]
    unfold networkedTarget
    rw [if_neg (by decide : ¬ ("ar" : String) = "en")]
    by_cases hp : ensureSlash (stripCur path) = "/"
    · rw [if_pos hp, if_pos hp]
      rfl
    · rw [if_neg hp, if_neg hp]
      rfl

/-- Witness for C1 at the concrete address `/ar/projects/detail.html`. -/
theorem C1_networked_rewrite_witness :
    switchToNetworked "/ar/projects/detail.html" "en"
      = some (ensureSlash (stripCur "/ar/projects/detail.html")) :=
  C1_networked_rewrite.1 "/ar/projects/detail.html" (by decide)

/-- C2: in local-file mode, from inside a non-default (`ar`) locale folder,
`switchTo('en')` navigates to the parent of the enclosing folder plus the
filename; from a folder carrying no locale marker, `switchTo('ar')`
navigates to the enclosing folder plus the `ar` folder plus the filename;
in particular `.../site/ar/index.html` with `switchTo('en')` yields
`.../site/index.html`, and `.../site/index.html` with `switchTo('ar')`
yields `.../site/ar/index.html`. -/
theorem C2_localfile_rewrite :
    (∀ path : String, getCurrentLang path = some "ar" →
       jsEndsWith (dirOf path) "/ar" = true →
       switchToLocalFile path "en" = some (dirOf (dirOf path) ++ "/" ++ fileOf path))
  ∧ (∀ path : String, getCurrentLang path ≠ some "ar" →
       jsEndsWith (dirOf path) ("/" ++ langStr (getCurrentLang path)) = false →
       switchToLocalFile path "ar" = some (dirOf path ++ "/ar/" ++ fileOf path))
  ∧ switchToLocalFile "/AMD/site/ar/index.html" "en" = some "/AMD/site/index.html"
  ∧ switchToLocalFile "/AMD/site/index.html" "ar" = some "/AMD/site/ar/index.html" := by
  refine ⟨?_, ?_, by decide, by decide⟩
  · intro path hc hend
    have hne : getCurrentLang path ≠ some "en" := by rw [hc]; decide
    rw [switchToLocalFile_eq path "en" (by decide) hne]
    unfold localFileTarget
    rw [hc]
    rw [if_pos (show jsEndsWith (dirOf path) ("/" ++ langStr (some "ar")) = true from hend)]
    rw [if_pos rfl]
  · intro path hc hend
    rw [switchToLocalFile_eq path "ar" (by decide) hc]
    unfold localFileTarget
    rw [if_neg (by rw [hend]; decide)]
    by_cases he : getCurrentLang path = some "en"
    · rw [if_pos ⟨he, rfl⟩]
    · rw [if_neg (fun hand => he hand.1)]
      rw [append_slash_ar]

/-- Witness for C2 at the concrete address `/AMD/site/ar/index.html`. -/
theorem C2_localfile_rewrite_witness :
    switchToLocalFile "/AMD/site/ar/index.html" "en"
      = some (dirOf (dirOf "/AMD/site/ar/index.html") ++ "/"
              ++ fileOf "/AMD/site/ar/index.html") :=
  C2_localfile_rewrite.1 "/AMD/site/ar/index.html" (by decide) (by decide)

/-- C3: on a load whose address yields no locale, `detectAndRedirect`
navigates exactly when the path is the site root (`"/"` or `""`), and then
to `'./' + preferredLang + '/'` per the stored/browser/default precedence;
the root with no stored preference and browser `ar` goes to the `ar` root,
the root with stored `en` goes to the `en` root regardless of the browser
language, and a locale root reached this way triggers no further
navigation. -/
theorem C3_root_redirect :
    (∀ path stored browserLang, getCurrentLang path = none →
       ((detectAndRedirect path stored browserLang).navTarget ≠ none
         ↔ (path = "/" ∨ path = "")))
  ∧ (∀ stored browserLang, detectAndRedirect "/" stored browserLang
       = ⟨none, some ("./" ++ getPreferredLangCore stored browserLang ++ "/")⟩)
  ∧ detectAndRedirect "/" none "ar" = ⟨none, some "./ar/"⟩
  ∧ (∀ browserLang, detectAndRedirect "/" (some "en") browserLang
       = ⟨none, some "./en/"⟩)
  ∧ (∀ lang stored browserLang, lang ∈ SUPPORTED_LANGS →
       (detectAndRedirect ("/" ++ lang ++ "/") stored browserLang).navTarget
         = none) := by
  refine ⟨?_, fun stored b => rfl, by decide, fun b => rfl, ?_⟩
  · intro path stored b h
    unfold detectAndRedirect
    rw [h]
    by_cases hr : path = "/" ∨ path = ""
    · rw [if_pos hr]
      simp [hr]
    · rw [if_neg hr]
      simp [hr]
  · intro lang stored b hmem
    have : lang = "en" ∨ lang = "ar" := by simpa [SUPPORTED_LANGS] using hmem
    rcases this with h | h <;> subst h <;> rfl

/-- Witness for C3: the `ar` root reached by the redirect navigates no
further. -/
theorem C3_root_redirect_witness :
    (detectAndRedirect ("/" ++ "ar" ++ "/") none "en").navTarget = none :=
  C3_root_redirect.2.2.2.2 "ar" none "en" (by decide)

/-- C4 fails as stated: rewriting `/ar/projects/detail.html` to the
supported default locale `en` yields `/projects/detail.html`, whose
resolved locale is `none`, not `en`. -/
theorem C4_counterexample :
    switchToNetworked "/ar/projects/detail.html" "en" = some "/projects/detail.html"
  ∧ getCurrentLang "/projects/detail.html" ≠ some "en"
  ∧ getCurrentLang "/projects/detail.html" = none := by decide

/-- C4 amended: the round-trip holds for the non-default locale — whenever
the networked rewrite with target `ar` produces a path, resolving that
path's locale yields `ar`; for the default target `en` the rewrite leaves
the stripped path unprefixed, so its resolved locale is in general
unspecified rather than `en`. -/
theorem C4_roundtrip_amended :
    (∀ path q : String, switchToNetworked path "ar" = some q →
       getCurrentLang q = some "ar")
  ∧ switchToNetworked "/ar/projects/detail.html" "en" = some "/projects/detail.html"
  ∧ getCurrentLang "/projects/detail.html" = none := by
  refine ⟨?_, by decide, by decide⟩
  intro path q h
  by_cases hc : getCurrentLang path = some "ar"
  · rw [switchToNetworked, switchTo, if_pos (by decide : ("ar" : String) ∈ SUPPORTED_LANGS),
       if_pos hc] at h
    exact absurd h (by simp)
  · rw [switchToNetworked_eq path "ar" (by decide) hc] at h
    obtain rfl : networkedTarget path "ar" = q := Option.some.inj h
    exact getCurrentLang_networkedTarget_ar path

/-- Witness for C4 amended at the concrete address `/projects/detail.html`. -/
theorem C4_roundtrip_amended_witness :
    getCurrentLang "/ar/projects/detail.html" = some "ar" :=
  C4_roundtrip_amended.1 "/projects/detail.html" "/ar/projects/detail.html" (by decide)

/-- C5 fails as stated: from `/ar/ar/page` the networked switch to `en`
yields `/ar/page`, and applying it again yields `/page` — each application
strips one `/ar`, so the rewrite is not idempotent for the default target. -/
theorem C5_counterexample :
    ¬ (effSwitchNetworked (effSwitchNetworked "/ar/ar/page" "en") "en"
        = effSwitchNetworked "/ar/ar/page" "en") := by decide

/-- C5 amended: the networked rewrite is idempotent for the non-default
target `ar` on every address (re-applying it is a same-locale no-op that
leaves the address unchanged); for the default target `en` idempotence
fails on addresses still carrying a locale marker after one strip, such as
`/ar/ar/page`, which reaches `/ar/page` and then `/page`. -/
theorem C5_idempotent_amended :
    (∀ path : String,
       effSwitchNetworked (effSwitchNetworked path "ar") "ar"
         = effSwitchNetworked path "ar")
  ∧ effSwitchNetworked "/ar/ar/page" "en" = "/ar/page"
  ∧ effSwitchNetworked (effSwitchNetworked "/ar/ar/page" "en") "en" = "/page" := by
  refine ⟨?_, by decide, by decide⟩
  intro path
  have hmem : ("ar" : String) ∈ SUPPORTED_LANGS := by decide
  by_cases hc : getCurrentLang path = some "ar"
  · have h1 : effSwitchNetworked path "ar" = path := by
      unfold effSwitchNetworked switchToNetworked switchTo
      rw [if_pos hmem, if_pos hc]
      rfl
    rw [h1, h1]
  · have h1 : effSwitchNetworked path "ar" = networkedTarget path "ar" := by
      unfold effSwitchNetworked
      rw [switchToNetworked_eq path "ar" hmem hc]
      rfl
    rw [h1]
    have h2 : getCurrentLang (networkedTarget path "ar") = some "ar" :=
      getCurrentLang_networkedTarget_ar path
    unfold effSwitchNetworked switchToNetworked switchTo
    rw [if_pos hmem, if_pos h2]
    rfl

/-- C6: a `switchTo` with a locale outside the supported set emits exactly
one warning, writes no preference and navigates nowhere, on every path and
in both addressing modes. -/
theorem C6_unsupported_warns (lang path : String) (isFile : Bool)
    (h : lang ∉ SUPPORTED_LANGS) :
    switchTo isFile path lang = ⟨1, none, none⟩ := by
  unfold switchTo
  rw [if_neg h]

/-- Witness for C6 with the unsupported code `fr`. -/
theorem C6_unsupported_warns_witness :
    switchTo false "/" "fr" = ⟨1, none, none⟩ :=
  C6_unsupported_warns "fr" "/" false (by decide)

/-- C7: when the address already resolves to the supported locale being
requested, `switchTo` is a silent no-op: no warning, no preference write,
no navigation, in both addressing modes. -/
theorem C7_same_locale_noop (lang path : String) (isFile : Bool)
    (hmem : lang ∈ SUPPORTED_LANGS) (hcur : getCurrentLang path = some lang) :
    switchTo isFile path lang = ⟨0, none, none⟩ := by
  unfold switchTo
  rw [if_pos hmem, if_pos hcur]

/-- Witness for C7 at `/ar/index.html` with target `ar`. -/
theorem C7_same_locale_noop_witness :
    switchTo false "/ar/index.html" "ar" = ⟨0, none, none⟩ :=
  C7_same_locale_noop "ar" "/ar/index.html" false (by decide) (by decide)

/-- C8 fails as stated: the code installs no try/catch, so a throwing
storage read escapes `getPreferredLang`, and on a root load a throwing
storage layer makes `detectAndRedirect` (hence `init`) propagate the
exception instead of completing. -/
theorem C8_counterexample :
    getPreferredLangE (Except.error ()) "ar" = Except.error ()
  ∧ detectAndRedirectE "/" true none "ar" = Except.error () :=
  ⟨rfl, rfl⟩

/-- C8 amended: resolution degrades to the browser/default fallback only
when storage reports the preference absent without throwing; when
`getItem`/`setItem` throw, the exception propagates out of
`getPreferredLang` and out of `detectAndRedirect` on every routed or root
load. -/
theorem C8_storage_amended :
    (∀ browserLang, getPreferredLangE (Except.ok none) browserLang
       = Except.ok (browserFallback browserLang))
  ∧ (∀ browserLang, getPreferredLangE (Except.error ()) browserLang
       = Except.error ())
  ∧ (∀ path stored browserLang,
       (getCurrentLang path ≠ none ∨ path = "/" ∨ path = "") →
       detectAndRedirectE path true stored browserLang = Except.error ()) := by
  refine ⟨fun b => rfl, fun b => rfl, ?_⟩
  intro path stored b h
  unfold detectAndRedirectE
  cases hcl : getCurrentLang path with
  | some c => rfl
  | none =>
    have hr : path = "/" ∨ path = "" := h.resolve_left (not_not_intro hcl)
    rw [if_pos hr]
    rfl

/-- Witness for C8 amended at the root address with throwing storage. -/
theorem C8_storage_amended_witness :
    detectAndRedirectE "/" true none "ar" = Except.error () :=
  C8_storage_amended.2.2 "/" none "ar" (Or.inr (Or.inl rfl))

/-- C9: after `updateLanguageSwitcher` runs for the active locale, a button
carries the active class exactly when its bound locale is the active one,
carries `aria-current` exactly when its bound locale is the active one, and
the two markers never disagree on any button. -/
theorem C9_switcher_sync (currentLang : String) (btns : List SwitchBtn)
    (b : SwitchBtn) (hb : b ∈ updateLanguageSwitcher currentLang btns) :
    (b.active = true ↔ b.lang = currentLang)
  ∧ (b.ariaCurrent = true ↔ b.lang = currentLang)
  ∧ b.ariaCurrent = b.active := by
  unfold updateLanguageSwitcher at hb
  rcases List.mem_map.1 hb with ⟨a, _, rfl⟩
  unfold updateBtn
  by_cases h : a.lang = currentLang
  · rw [if_pos h]
    simp [h]
  · rw [if_neg h]
    simp [h]

/-- Witness for C9 on a concrete two-button switcher updated to `ar`. -/
theorem C9_switcher_sync_witness :
    ((SwitchBtn.mk "ar" true true).active = true
       ↔ (SwitchBtn.mk "ar" true true).lang = "ar")
  ∧ ((SwitchBtn.mk "ar" true true).ariaCurrent = true
       ↔ (SwitchBtn.mk "ar" true true).lang = "ar")
  ∧ (SwitchBtn.mk "ar" true true).ariaCurrent
      = (SwitchBtn.mk "ar" true true).active :=
  C9_switcher_sync "ar" [⟨"en", true, true⟩, ⟨"ar", false, false⟩]
    ⟨"ar", true, true⟩ (by decide)

/-- C10: `getAlternateUrl(lang)` always returns a path beginning with
`'/' + lang` — including for the default locale `en`, unlike the networked
`switchTo` rewrite, which leaves `en` unprefixed — and renders
`'/' + lang + '/'` when the stripped path is the root. -/
theorem C10_alternate_url :
    (∀ path lang : String,
       jsStartsWith (getAlternateUrl path lang) ("/" ++ lang) = true)
  ∧ (∀ path lang : String,
       ensureSlash (stripLang path ((getCurrentLang path).getD DEFAULT_LANG)) = "/" →
       getAlternateUrl path lang = "/" ++ lang ++ "/")
  ∧ getAlternateUrl "/ar/x.html" "en" = "/en/x.html"
  ∧ switchToNetworked "/ar/x.html" "en" = some "/x.html" := by
  refine ⟨?_, ?_, by decide, by decide⟩
  · intro path lang
    unfold getAlternateUrl jsStartsWith
    rw [String.data_append]
    exact listHasPre_append _ _
  · intro path lang h
    unfold getAlternateUrl
    rw [if_pos h]

/-- Witness for C10 at the root-collapsing address `/ar`. -/
theorem C10_alternate_url_witness :
    getAlternateUrl "/ar" "en" = "/" ++ "en" ++ "/" :=
  C10_alternate_url.2.1 "/ar" "en" (by decide)

end AMD
